import Mathlib

/-!
Shallow embedding of the orchestr8-async scheduling and persistence core
(src/plugins/orchestr8/mcp-server/orchestr8-async). Tables of the DuckDB
store are modelled as Lean lists of rows, SQL timestamps as abstract Nat
instants passed explicitly as a `now` argument, UUIDs as Nat identifiers,
and each Rust operation as a pure function on the table lists. I/O errors
of the connection pool (the `Result` wrapper in Rust) are outside the
model: every embedded operation is the success path of its Rust original.
-/

/-- Task status enum (db.rs `TaskStatus`). -/
inductive TaskStatus where
  | Pending
  | Running
  | Completed
  | Failed
  | Cancelled
deriving DecidableEq, Repr

/-- db.rs `TaskStatus::as_str`. -/
def TaskStatus.as_str : TaskStatus → String
  | TaskStatus.Pending => ("pending")
  | TaskStatus.Running => ("running")
  | TaskStatus.Completed => ("completed")
  | TaskStatus.Failed => ("failed")
  | TaskStatus.Cancelled => ("cancelled")

/-- Task priority levels (db.rs `TaskPriority`). -/
inductive TaskPriority where
  | Low
  | Normal
  | High
  | Critical
deriving DecidableEq, Repr

/-- db.rs `TaskPriority::as_i32`: the stable ordinals 1/5/10/20. -/
def TaskPriority.as_i32 : TaskPriority → Int
  | TaskPriority.Low => 1
  | TaskPriority.Normal => 5
  | TaskPriority.High => 10
  | TaskPriority.Critical => 20

/-- db.rs `AsyncTask`: one row of the `tasks` table. -/
structure AsyncTask where
  id : Nat
  name : String
  description : Option String
  workflow_id : Option Nat
  phase_id : Option String
  agent_name : String
  agent_instructions : String
  status : TaskStatus
  priority : TaskPriority
  dependencies : List Nat
  created_at : Nat
  started_at : Option Nat
  completed_at : Option Nat
  result : Option String
  error : Option String
  webhook_url : Option String
  retry_count : Int
  max_retries : Int
  timeout_seconds : Option Int
  metadata : Option String
deriving DecidableEq, Repr

/-- db.rs `AsyncTask::is_ready`. -/
def AsyncTask.is_ready (t : AsyncTask) : Bool :=
  t.status == TaskStatus.Pending

/-- db.rs `AsyncTask::is_complete`: terminal states. -/
def AsyncTask.is_complete (t : AsyncTask) : Bool :=
  match t.status with
  | TaskStatus.Completed | TaskStatus.Failed | TaskStatus.Cancelled => true
  | _ => false

/-- db.rs `AsyncTask::can_retry`. -/
def AsyncTask.can_retry (t : AsyncTask) : Bool :=
  t.status == TaskStatus.Failed && t.retry_count < t.max_retries

/-- db.rs `Workflow`: one row of the `workflows` table. -/
structure Workflow where
  id : Nat
  name : String
  description : Option String
  status : TaskStatus
  created_at : Nat
  started_at : Option Nat
  completed_at : Option Nat
  metadata : Option String
deriving DecidableEq, Repr

/-- db.rs `WorkflowPhase`: one row of the `workflow_phases` table. -/
structure WorkflowPhase where
  workflow_id : Nat
  phase_id : String
  name : String
  depends_on : List String
  status : TaskStatus
  created_at : Nat
  started_at : Option Nat
  completed_at : Option Nat
deriving DecidableEq, Repr

/-- One row of the `task_logs` table (db.rs `add_task_log`). -/
structure TaskLog where
  task_id : Nat
  timestamp : Nat
  level : String
  message : String
  metadata : Option String
deriving DecidableEq, Repr

/-- webhook.rs `WebhookPayload`. The Rust code JSON-parses `metadata`;
the model keeps the raw text. -/
structure WebhookPayload where
  task_id : Nat
  task_name : String
  status : String
  result : Option String
  error : Option String
  completed_at : Option Nat
  metadata : Option String
deriving DecidableEq, Repr

/-- webhook.rs `WebhookPayload::from_task`. -/
def WebhookPayload.from_task (t : AsyncTask) : WebhookPayload :=
  { task_id := t.id
    task_name := t.name
    status := t.status.as_str
    result := t.result
    error := t.error
    completed_at := t.completed_at
    metadata := t.metadata }

/-- One row of the `webhook_deliveries` table. The TEXT `payload` column
holds the JSON serialization of a `WebhookPayload`; the model stores the
structure itself. -/
structure WebhookDeliveryRow where
  task_id : Nat
  webhook_url : String
  payload : WebhookPayload
  status_code : Option Nat
  response : Option String
  attempted_at : Nat
  delivered_at : Option Nat
deriving DecidableEq, Repr

/-- The five persisted tables of the store (db.rs `init_schema`). -/
structure Store where
  tasks : List AsyncTask
  workflows : List Workflow
  phases : List WorkflowPhase
  task_logs : List TaskLog
  webhook_deliveries : List WebhookDeliveryRow
deriving DecidableEq, Repr

namespace Database

/-- db.rs `Database::get_task`: SELECT ... FROM tasks WHERE id = ?. -/
def get_task (tasks : List AsyncTask) (id : Nat) : Option AsyncTask :=
  tasks.find? (fun t => t.id == id)

/-- db.rs `Database::insert_task`: INSERT INTO tasks. -/
def insert_task (tasks : List AsyncTask) (t : AsyncTask) : List AsyncTask :=
  tasks ++ [t]

/-- The per-row effect of db.rs `Database::update_task_status`: the match
on the target status selects which timestamp column the UPDATE touches. -/
def task_status_update (status : TaskStatus) (now : Nat) (t : AsyncTask) : AsyncTask :=
  match status with
  | TaskStatus.Running => { t with status := status, started_at := some now }
  | TaskStatus.Completed | TaskStatus.Failed | TaskStatus.Cancelled =>
      { t with status := status, completed_at := some now }
  | _ => { t with status := status }

/-- db.rs `Database::update_task_status`: UPDATE tasks ... WHERE id = ?. -/
def update_task_status (tasks : List AsyncTask) (id : Nat) (status : TaskStatus) (now : Nat) :
    List AsyncTask :=
  tasks.map (fun t => if t.id = id then task_status_update status now t else t)

/-- db.rs `Database::update_task_result`: sets result, status=completed,
completed_at=now. -/
def update_task_result (tasks : List AsyncTask) (id : Nat) (result : String) (now : Nat) :
    List AsyncTask :=
  tasks.map (fun t =>
    if t.id = id then
      { t with result := some result, status := TaskStatus.Completed, completed_at := some now }
    else t)

/-- db.rs `Database::update_task_error`: sets error, status=failed,
completed_at=now. -/
def update_task_error (tasks : List AsyncTask) (id : Nat) (error : String) (now : Nat) :
    List AsyncTask :=
  tasks.map (fun t =>
    if t.id = id then
      { t with error := some error, status := TaskStatus.Failed, completed_at := some now }
    else t)

/-- The ORDER BY key of `get_pending_tasks`: priority DESC, created_at ASC. -/
def task_order (t u : AsyncTask) : Prop :=
  u.priority.as_i32 < t.priority.as_i32 ∨
    (t.priority.as_i32 = u.priority.as_i32 ∧ t.created_at ≤ u.created_at)

instance : DecidableRel task_order := fun t u => by
  unfold task_order; infer_instance

/-- The ORDER BY key created_at ASC used by `get_workflow_tasks`. -/
def created_order (t u : AsyncTask) : Prop :=
  t.created_at ≤ u.created_at

instance : DecidableRel created_order := fun t u => by
  unfold created_order; infer_instance

/-- db.rs `Database::get_pending_tasks`: WHERE status = pending
ORDER BY priority DESC, created_at ASC LIMIT ?. -/
def get_pending_tasks (tasks : List AsyncTask) (limit : Nat) : List AsyncTask :=
  (((tasks.filter (fun t => t.status == TaskStatus.Pending)).insertionSort task_order).take limit)

/-- db.rs `Database::get_workflow_tasks`: WHERE workflow_id = ?
ORDER BY created_at ASC. -/
def get_workflow_tasks (tasks : List AsyncTask) (workflow_id : Nat) : List AsyncTask :=
  ((tasks.filter (fun t => t.workflow_id == some workflow_id)).insertionSort created_order)

/-- db.rs `Database::are_dependencies_completed`: true iff each listed
dependency id has a task row whose status is completed; a missing row (or
a non-completed status) yields false. The unparseable-status branch of
the Rust loop cannot arise in the model, where statuses are the enum. -/
def are_dependencies_completed (tasks : List AsyncTask) (t : AsyncTask) : Bool :=
  if t.dependencies.isEmpty then true
  else t.dependencies.all (fun d =>
    match get_task tasks d with
    | some u => u.status == TaskStatus.Completed
    | none => false)

/-- db.rs `Database::get_workflow`: SELECT ... FROM workflows WHERE id = ?. -/
def get_workflow (workflows : List Workflow) (id : Nat) : Option Workflow :=
  workflows.find? (fun w => w.id == id)

/-- The per-row effect of db.rs `Database::update_workflow_status`. -/
def workflow_status_update (status : TaskStatus) (now : Nat) (w : Workflow) : Workflow :=
  match status with
  | TaskStatus.Running => { w with status := status, started_at := some now }
  | TaskStatus.Completed | TaskStatus.Failed | TaskStatus.Cancelled =>
      { w with status := status, completed_at := some now }
  | _ => { w with status := status }

/-- db.rs `Database::update_workflow_status`: UPDATE workflows WHERE id = ?. -/
def update_workflow_status (workflows : List Workflow) (id : Nat) (status : TaskStatus)
    (now : Nat) : List Workflow :=
  workflows.map (fun w => if w.id = id then workflow_status_update status now w else w)

/-- db.rs `Database::get_workflow_phases`: WHERE workflow_id = ?
ORDER BY created_at ASC. -/
def get_workflow_phases (phases : List WorkflowPhase) (workflow_id : Nat) : List WorkflowPhase :=
  ((phases.filter (fun p => p.workflow_id == workflow_id)).insertionSort
    (fun p q => p.created_at ≤ q.created_at))

/-- db.rs `Database::are_phase_dependencies_completed`. -/
def are_phase_dependencies_completed (phases : List WorkflowPhase) (workflow_id : Nat)
    (phase : WorkflowPhase) : Bool :=
  if phase.depends_on.isEmpty then true
  else phase.depends_on.all (fun dep =>
    match phases.find? (fun p => p.workflow_id == workflow_id && p.phase_id == dep) with
    | some p => p.status == TaskStatus.Completed
    | none => false)

/-- db.rs `Database::add_task_log`: INSERT INTO task_logs (append-only). -/
def add_task_log (logs : List TaskLog) (task_id : Nat) (level message : String)
    (metadata : Option String) (now : Nat) : List TaskLog :=
  logs ++ [{ task_id := task_id, timestamp := now, level := level, message := message,
             metadata := metadata }]

end Database

/-- queue.rs `TaskResult`: published by a worker onto the result channel. -/
structure TaskResult where
  task_id : Nat
  success : Bool
  result : Option String
  error : Option String
deriving DecidableEq, Repr

namespace TaskQueue

/-- queue.rs `TaskQueue::simulate_task_execution`: the stub runner, which
always succeeds with a text derived from the task name. -/
def simulate_task_execution (task : AsyncTask) : TaskResult :=
  { task_id := task.id
    success := true
    result := some (("Simulated result for task: ") ++ task.name)
    error := none }

/-- queue.rs `TaskQueue::execute_task`, processing an Execute(id) command:
load the task; if missing, return without mutating anything; otherwise set
status to running, append the started log, run the stub runner and emit
its `TaskResult` (which the result processor will consume). -/
def execute_task (s : Store) (task_id : Nat) (now : Nat) : Store × Option TaskResult :=
  match Database.get_task s.tasks task_id with
  | none => (s, none)
  | some task =>
      ({ s with
          tasks := Database.update_task_status s.tasks task_id TaskStatus.Running now
          task_logs := Database.add_task_log s.task_logs task_id ("INFO") ("Task started")
            none now },
       some (simulate_task_execution task))

/-- queue.rs `TaskQueue::cancel_task`, processing a Cancel(id) command:
update the status to cancelled (no precondition on the current status)
and append the cancelled log. -/
def cancel_task (s : Store) (task_id : Nat) (now : Nat) : Store :=
  { s with
      tasks := Database.update_task_status s.tasks task_id TaskStatus.Cancelled now
      task_logs := Database.add_task_log s.task_logs task_id ("INFO") ("Task cancelled")
        none now }

/-- queue.rs `TaskQueue::retry_task`, processing a Retry(id) command:
load the task; if missing or `can_retry` is false, return without
mutating; otherwise reset the status to pending and append the log. -/
def retry_task (s : Store) (task_id : Nat) (now : Nat) : Store :=
  match Database.get_task s.tasks task_id with
  | none => s
  | some task =>
      if !task.can_retry then s
      else
        { s with
            tasks := Database.update_task_status s.tasks task_id TaskStatus.Pending now
            task_logs := Database.add_task_log s.task_logs task_id ("INFO")
              ("Task retry scheduled") none now }

/-- queue.rs `TaskQueue::update_workflow_status`: the workflow rollup. -/
def update_workflow_status (s : Store) (workflow_id : Nat) (now : Nat) : Store :=
  let tasks := Database.get_workflow_tasks s.tasks workflow_id
  let all_completed := tasks.all (fun t => t.status == TaskStatus.Completed)
  let any_failed := tasks.any (fun t => t.status == TaskStatus.Failed)
  let all_done := tasks.all (fun t => t.is_complete)
  if any_failed then
    { s with workflows :=
        Database.update_workflow_status s.workflows workflow_id TaskStatus.Failed now }
  else if all_completed then
    { s with workflows :=
        Database.update_workflow_status s.workflows workflow_id TaskStatus.Completed now }
  else if all_done then
    { s with workflows :=
        Database.update_workflow_status s.workflows workflow_id TaskStatus.Completed now }
  else s

/-- queue.rs `TaskQueue::process_task_result`: write the final task state,
log, and trigger the workflow rollup when the task belongs to one. The
webhook branch of the Rust code only emits a debug log. -/
def process_task_result (s : Store) (r : TaskResult) (now : Nat) : Store :=
  let s1 :=
    if r.success then
      match r.result with
      | some result_data =>
          { s with
              tasks := Database.update_task_result s.tasks r.task_id result_data now
              task_logs := Database.add_task_log s.task_logs r.task_id ("INFO")
                ("Task completed successfully") none now }
      | none => s
    else
      match r.error with
      | some e =>
          { s with
              tasks := Database.update_task_error s.tasks r.task_id e now
              task_logs := Database.add_task_log s.task_logs r.task_id ("ERROR")
                ("Task failed") none now }
      | none => s
  match Database.get_task s1.tasks r.task_id with
  | some task =>
      match task.workflow_id with
      | some workflow_id => update_workflow_status s1 workflow_id now
      | none => s1
  | none => s1

/-- The per-candidate test of queue.rs `TaskQueue::schedule_pending_tasks`:
the task's dependencies are completed and, when the task names a workflow
phase that exists, that phase's dependencies are completed too (the
`continue` of the Rust loop is the false case). -/
def schedule_task_ready (s : Store) (task : AsyncTask) : Bool :=
  if Database.are_dependencies_completed s.tasks task then
    match task.workflow_id, task.phase_id with
    | some workflow_id, some phase_id =>
        match (Database.get_workflow_phases s.phases workflow_id).find?
            (fun p => p.phase_id == phase_id) with
        | some phase => Database.are_phase_dependencies_completed s.phases workflow_id phase
        | none => true
    | _, _ => true
  else false

/-- queue.rs `TaskQueue::schedule_pending_tasks`: one scheduler tick. For
each of the first 100 pending tasks passing `schedule_task_ready`,
enqueue Execute(id). Returns the ids the tick sends to the command
channel, in order. -/
def schedule_pending_tasks (s : Store) : List Nat :=
  ((Database.get_pending_tasks s.tasks 100).filter (schedule_task_ready s)).map (fun t => t.id)

end TaskQueue

namespace Api

/-- api.rs `create_task`: insert the task row and immediately submit
Execute(task.id) to the command channel, with no look at the task's
dependency list. Returns the new store and the submitted command's id. -/
def create_task (s : Store) (task : AsyncTask) : Store × Nat :=
  ({ s with tasks := Database.insert_task s.tasks task }, task.id)

end Api

/-- webhook.rs `WebhookConfig`. -/
structure WebhookConfig where
  max_retries : Nat
  retry_delay_seconds : Nat
  timeout_seconds : Nat
deriving DecidableEq, Repr

/-- webhook.rs `WebhookConfig::default`. -/
def WebhookConfig.default : WebhookConfig :=
  { max_retries := 3, retry_delay_seconds := 5, timeout_seconds := 30 }

/-- The outcome of one HTTP POST of the payload, the external part of
webhook.rs `send_webhook`: either a response with a status code and body,
or a network/timeout error with a message. -/
inductive SendOutcome where
  | response (status : Nat) (body : String)
  | netError (msg : String)
deriving DecidableEq, Repr

namespace WebhookManager

/-- webhook.rs `WebhookManager::send_webhook` after the POST: a 2xx
response is Ok with its status and body; any other response, and any
network error, is Err carrying only a message. -/
def send_webhook_result : SendOutcome → Except String (Nat × String)
  | SendOutcome.response status body =>
      if 200 ≤ status && status < 300 then Except.ok (status, body)
      else Except.error (("Webhook delivery failed with status ") ++ toString status
        ++ (": ") ++ body)
  | SendOutcome.netError msg => Except.error msg

/-- webhook.rs `WebhookManager::log_delivery`: the INSERT into
webhook_deliveries; `delivered_at` is `status_code.map(|_| now)`, so it is
set exactly when a status code is recorded. -/
def log_delivery_row (task_id : Nat) (url : String) (payload : WebhookPayload)
    (status_code : Option Nat) (response : Option String) (now : Nat) : WebhookDeliveryRow :=
  { task_id := task_id
    webhook_url := url
    payload := payload
    status_code := status_code
    response := response
    attempted_at := now
    delivered_at := status_code.map (fun _ => now) }

/-- One attempt of the delivery pipeline: the sleep delay that preceded it
and the delivery row it writes. -/
structure WebhookAttempt where
  delay : Nat
  row : WebhookDeliveryRow
deriving DecidableEq, Repr

/-- The loop body of webhook.rs `WebhookManager::retry_webhook`:
`attempt` is the 1-based retry counter, `remaining` the retries still
allowed. Each iteration sleeps `retry_delay_seconds * attempt`, sends, and
logs one delivery row; a 2xx outcome stops the loop with success. `send n`
is the outcome of the POST performed on attempt number `n`. -/
def retry_webhook_go (cfg : WebhookConfig) (task_id : Nat) (url : String)
    (payload : WebhookPayload) (send : Nat → SendOutcome) (now : Nat) :
    Nat → Nat → List WebhookAttempt × Bool
  | _, 0 => ([], false)
  | attempt, remaining + 1 =>
      let delay := cfg.retry_delay_seconds * attempt
      match send_webhook_result (send attempt) with
      | Except.ok (status, body) =>
          ([{ delay := delay,
              row := log_delivery_row task_id url payload (some status) (some body) now }],
           true)
      | Except.error e =>
          let rest := retry_webhook_go cfg task_id url payload send now (attempt + 1) remaining
          ({ delay := delay,
             row := log_delivery_row task_id url payload none (some e) now } :: rest.1,
           rest.2)

/-- webhook.rs `WebhookManager::retry_webhook`: up to `max_retries`
retries, attempt counter starting at 1. Returns the attempts made (one
delivery row each) and whether one of them succeeded. -/
def retry_webhook (cfg : WebhookConfig) (task_id : Nat) (url : String)
    (payload : WebhookPayload) (send : Nat → SendOutcome) (now : Nat) :
    List WebhookAttempt × Bool :=
  retry_webhook_go cfg task_id url payload send now 1 cfg.max_retries

/-- webhook.rs `WebhookManager::deliver_webhook`: load the task; when it
has a webhook url and is in a terminal state, build the payload and POST
it (attempt number 0, no preceding sleep); on failure log the row and run
the retry loop. Returns every attempt the call makes, in order. -/
def deliver_webhook (cfg : WebhookConfig) (s : Store) (task_id : Nat)
    (send : Nat → SendOutcome) (now : Nat) : List WebhookAttempt :=
  match Database.get_task s.tasks task_id with
  | none => []
  | some task =>
      match task.webhook_url with
      | none => []
      | some url =>
          if task.is_complete then
            let payload := WebhookPayload.from_task task
            match send_webhook_result (send 0) with
            | Except.ok (status, body) =>
                [{ delay := 0,
                   row := log_delivery_row task_id url payload (some status) (some body) now }]
            | Except.error e =>
                { delay := 0,
                  row := log_delivery_row task_id url payload none (some e) now }
                  :: (retry_webhook cfg task_id url payload send now).1
          else []

/-- The NOT EXISTS subquery of webhook.rs `find_pending_webhooks`: does
some delivery row for this task carry a 2xx status code. -/
def has_2xx_delivery (wd : List WebhookDeliveryRow) (task_id : Nat) : Bool :=
  wd.any (fun d => d.task_id == task_id &&
    (match d.status_code with
     | some c => decide (200 ≤ c ∧ c < 300)
     | none => false))

/-- The ORDER BY completed_at ASC key of `find_pending_webhooks`, with
SQL NULLs last. -/
def completed_order (t u : AsyncTask) : Prop :=
  match t.completed_at, u.completed_at with
  | none, none => True
  | none, some _ => False
  | some _, none => True
  | some x, some y => x ≤ y

instance : DecidableRel completed_order := fun t u => by
  unfold completed_order
  rcases t.completed_at with _ | x <;> rcases u.completed_at with _ | y <;> infer_instance

/-- webhook.rs `WebhookManager::find_pending_webhooks`: SELECT t.id FROM
tasks WHERE webhook_url IS NOT NULL AND status IN (completed, failed) AND
no 2xx delivery row exists, ORDER BY completed_at ASC LIMIT 100. The SQL
DISTINCT is a no-op because id is the primary key of tasks. -/
def find_pending_webhooks (tasks : List AsyncTask) (wd : List WebhookDeliveryRow) : List Nat :=
  (((tasks.filter (fun t =>
      t.webhook_url.isSome &&
      (t.status == TaskStatus.Completed || t.status == TaskStatus.Failed) &&
      !(has_2xx_delivery wd t.id))).insertionSort completed_order).map (fun t => t.id)).take 100

end WebhookManager

/-- db.rs `AsyncTask::new`: the defaults of a freshly built task. The
Rust constructor draws a fresh UUID and the current instant; the model
takes both as arguments. -/
def AsyncTask.new (id : Nat) (name agent_name agent_instructions : String)
    (created_at : Nat) : AsyncTask :=
  { id := id
    name := name
    description := none
    workflow_id := none
    phase_id := none
    agent_name := agent_name
    agent_instructions := agent_instructions
    status := TaskStatus.Pending
    priority := TaskPriority.Normal
    dependencies := []
    created_at := created_at
    started_at := none
    completed_at := none
    result := none
    error := none
    webhook_url := none
    retry_count := 0
    max_retries := 3
    timeout_seconds := none
    metadata := none }

/-- A store with all five tables empty. -/
def empty_store : Store :=
  { tasks := [], workflows := [], phases := [], task_logs := [], webhook_deliveries := [] }

/-- A row-by-id UPDATE commutes with the row-by-id SELECT, provided the
update function keeps the id column: looking up the updated key sees the
updated row, any other key is untouched. -/
theorem get_task_map_update (tasks : List AsyncTask) (id j : Nat) (f : AsyncTask → AsyncTask)
    (hf : ∀ t, (f t).id = t.id) :
    Database.get_task (tasks.map (fun t => if t.id = id then f t else t)) j
      = (if j = id then (Database.get_task tasks j).map f else Database.get_task tasks j) := by
  unfold Database.get_task
  rw [List.find?_map]
  have hpred : ((fun t : AsyncTask => t.id == j) ∘ (fun t => if t.id = id then f t else t))
      = (fun t : AsyncTask => t.id == j) := by
    funext t
    by_cases h : t.id = id
    · simp [Function.comp, h, hf t]
    · simp [Function.comp, h]
  rw [hpred]
  by_cases hj : j = id
  · subst hj
    rw [if_pos rfl]
    cases hfind : tasks.find? (fun t => t.id == j) with
    | none => rfl
    | some a =>
        have ha : a.id = j := by simpa using List.find?_some hfind
        simp [ha]
  · rw [if_neg hj]
    cases hfind : tasks.find? (fun t => t.id == j) with
    | none => rfl
    | some a =>
        have ha : a.id = j := by simpa using List.find?_some hfind
        have : ¬ a.id = id := by rw [ha]; exact hj
        simp [this]

/-- C9: `update_task_status(id, s)` stamps timestamps according to the
target status only — Running sets started_at, a terminal status sets
completed_at, Pending changes the status field alone — leaving every
other column of the row, and every other row, unchanged. -/
theorem claim9_update_task_status_timestamps (tasks : List AsyncTask) (id now : Nat)
    (st : TaskStatus) :
    (st = TaskStatus.Running →
      Database.get_task (Database.update_task_status tasks id st now) id
        = (Database.get_task tasks id).map
            (fun t => { t with status := st, started_at := some now })) ∧
    ((st = TaskStatus.Completed ∨ st = TaskStatus.Failed ∨ st = TaskStatus.Cancelled) →
      Database.get_task (Database.update_task_status tasks id st now) id
        = (Database.get_task tasks id).map
            (fun t => { t with status := st, completed_at := some now })) ∧
    (st = TaskStatus.Pending →
      Database.get_task (Database.update_task_status tasks id st now) id
        = (Database.get_task tasks id).map (fun t => { t with status := st })) ∧
    (∀ j, j ≠ id →
      Database.get_task (Database.update_task_status tasks id st now) j
        = Database.get_task tasks j) := by
  have hid : ∀ t : AsyncTask, (Database.task_status_update st now t).id = t.id := by
    intro t
    cases st <;> rfl
  have key := fun j => get_task_map_update tasks id j (Database.task_status_update st now) hid
  refine ⟨?_, ?_, ?_, ?_⟩
  · intro h
    subst h
    simpa [Database.update_task_status, Database.task_status_update] using key id
  · intro h
    rcases h with h | h | h <;> subst h <;>
      simpa [Database.update_task_status, Database.task_status_update] using key id
  · intro h
    subst h
    simpa [Database.update_task_status, Database.task_status_update] using key id
  · intro j hj
    simpa [Database.update_task_status, hj] using key j

/-- A pending task used to witness the Running case of C9. -/
def w9task : AsyncTask := AsyncTask.new 1 ("t9") ("agent") ("work") 2

theorem claim9_witness :
    TaskStatus.Running = TaskStatus.Running ∧
    Database.get_task (Database.update_task_status [w9task] 1 TaskStatus.Running 7) 1
      = (Database.get_task [w9task] 1).map
          (fun t => { t with status := TaskStatus.Running, started_at := some (7 : Nat) }) :=
  ⟨rfl, (claim9_update_task_status_timestamps [w9task] 1 7 TaskStatus.Running).1 rfl⟩

/-- C10: processing Cancel(id) overwrites the row's status with Cancelled
and restamps completed_at whatever the current status was — including an
already Completed or Failed one — while the result and error columns (and
every column other than status and completed_at) stay as they were; the
"Task cancelled" log is appended. -/
theorem claim10_cancel_overwrites_terminal (s : Store) (id now : Nat) (t : AsyncTask)
    (hget : Database.get_task s.tasks id = some t) :
    Database.get_task (TaskQueue.cancel_task s id now).tasks id
      = some { t with status := TaskStatus.Cancelled, completed_at := some now } ∧
    (TaskQueue.cancel_task s id now).task_logs
      = s.task_logs ++ [{ task_id := id, timestamp := now, level := ("INFO"),
                          message := ("Task cancelled"), metadata := none }] ∧
    (∀ j, j ≠ id →
      Database.get_task (TaskQueue.cancel_task s id now).tasks j
        = Database.get_task s.tasks j) := by
  have hid : ∀ u : AsyncTask,
      (Database.task_status_update TaskStatus.Cancelled now u).id = u.id := by
    intro u; rfl
  have key := fun j =>
    get_task_map_update s.tasks id j (Database.task_status_update TaskStatus.Cancelled now) hid
  refine ⟨?_, rfl, ?_⟩
  · have h := key id
    rw [if_pos rfl] at h
    exact h.trans (by rw [hget]; rfl)
  · intro j hj
    have h := key j
    rw [if_neg hj] at h
    exact h

/-- A completed task with a recorded result, witnessing that Cancel
overwrites a terminal status. -/
def w10task : AsyncTask :=
  { AsyncTask.new 1 ("t10") ("agent") ("work") 2 with
      status := TaskStatus.Completed, completed_at := some 4, result := some ("ok") }

/-- The store holding only `w10task`. -/
def w10store : Store := { empty_store with tasks := [w10task] }

theorem claim10_witness :
    Database.get_task w10store.tasks 1 = some w10task ∧
    Database.get_task (TaskQueue.cancel_task w10store 1 9).tasks 1
      = some { w10task with status := TaskStatus.Cancelled, completed_at := some 9 } :=
  ⟨rfl, (claim10_cancel_overwrites_terminal w10store 1 9 w10task rfl).1⟩

/-- The per-dependency test inside `are_dependencies_completed`, as a
proposition: the referenced row exists and is completed. -/
theorem dep_check_iff (tasks : List AsyncTask) (d : Nat) :
    (match Database.get_task tasks d with
     | some u => u.status == TaskStatus.Completed
     | none => false) = true ↔
      (∃ u, Database.get_task tasks d = some u ∧ u.status = TaskStatus.Completed) := by
  cases hg : Database.get_task tasks d with
  | none => simp
  | some u => simp

/-- `are_dependencies_completed` holds exactly when every listed
dependency resolves to a completed task row. -/
theorem are_dependencies_completed_iff (tasks : List AsyncTask) (t : AsyncTask) :
    Database.are_dependencies_completed tasks t = true ↔
      ∀ d ∈ t.dependencies, ∃ u, Database.get_task tasks d = some u ∧
        u.status = TaskStatus.Completed := by
  unfold Database.are_dependencies_completed
  by_cases h : t.dependencies.isEmpty
  · have he : t.dependencies = [] := List.isEmpty_iff.mp h
    simp [h, he]
  · rw [if_neg h]
    simp only [List.all_eq_true]
    constructor
    · intro hall d hd
      exact (dep_check_iff tasks d).mp (by simpa using hall d hd)
    · intro hall d hd
      simpa using (dep_check_iff tasks d).mpr (hall d hd)

/-- C6: `are_dependencies_completed(t)` is true iff the dependency list
is empty or every referenced id has a task row with status Completed, and
a dependency id with no row forces the result false (an ordinary false,
not an error). -/
theorem claim6_are_dependencies_completed (tasks : List AsyncTask) (t : AsyncTask) :
    (Database.are_dependencies_completed tasks t = true ↔
      (t.dependencies = [] ∨
        ∀ d ∈ t.dependencies, ∃ u, Database.get_task tasks d = some u ∧
          u.status = TaskStatus.Completed)) ∧
    (∀ d ∈ t.dependencies, Database.get_task tasks d = none →
      Database.are_dependencies_completed tasks t = false) := by
  constructor
  · rw [are_dependencies_completed_iff]
    constructor
    · intro h
      exact Or.inr h
    · rintro (h | h)
      · intro d hd
        rw [h] at hd
        cases hd
      · exact h
  · intro d hd hnone
    cases hb : Database.are_dependencies_completed tasks t with
    | false => rfl
    | true =>
        obtain ⟨u, hu, _⟩ := (are_dependencies_completed_iff tasks t).mp hb d hd
        rw [hnone] at hu
        cases hu

/-- A task depending on id 5, which has no row: used as the C6 witness. -/
def w6task : AsyncTask :=
  { AsyncTask.new 1 ("t6") ("agent") ("work") 0 with dependencies := [5] }

theorem claim6_witness :
    (5 : Nat) ∈ w6task.dependencies ∧
    Database.get_task ([] : List AsyncTask) 5 = none ∧
    Database.are_dependencies_completed [] w6task = false :=
  ⟨by decide, rfl, (claim6_are_dependencies_completed [] w6task).2 5 (by decide) rfl⟩

/-- Workflow analogue of `get_task_map_update`. -/
theorem get_workflow_map_update (ws : List Workflow) (id j : Nat) (f : Workflow → Workflow)
    (hf : ∀ w, (f w).id = w.id) :
    Database.get_workflow (ws.map (fun w => if w.id = id then f w else w)) j
      = (if j = id then (Database.get_workflow ws j).map f else Database.get_workflow ws j) := by
  unfold Database.get_workflow
  rw [List.find?_map]
  have hpred : ((fun w : Workflow => w.id == j) ∘ (fun w => if w.id = id then f w else w))
      = (fun w : Workflow => w.id == j) := by
    funext w
    by_cases h : w.id = id
    · simp [Function.comp, h, hf w]
    · simp [Function.comp, h]
  rw [hpred]
  by_cases hj : j = id
  · subst hj
    rw [if_pos rfl]
    cases hfind : ws.find? (fun w => w.id == j) with
    | none => rfl
    | some a =>
        have ha : a.id = j := by simpa using List.find?_some hfind
        simp [ha]
  · rw [if_neg hj]
    cases hfind : ws.find? (fun w => w.id == j) with
    | none => rfl
    | some a =>
        have ha : a.id = j := by simpa using List.find?_some hfind
        have : ¬ a.id = id := by rw [ha]; exact hj
        simp [this]

/-- Looking up the updated workflow id sees `workflow_status_update`. -/
theorem get_workflow_update_self (ws : List Workflow) (id : Nat) (st : TaskStatus) (now : Nat) :
    Database.get_workflow (Database.update_workflow_status ws id st now) id
      = (Database.get_workflow ws id).map (Database.workflow_status_update st now) := by
  have hid : ∀ w : Workflow, (Database.workflow_status_update st now w).id = w.id := by
    intro w
    cases st <;> rfl
  have h := get_workflow_map_update ws id id (Database.workflow_status_update st now) hid
  rw [if_pos rfl] at h
  exact h

/-- A list of all-completed tasks is a list of all-terminal tasks. -/
theorem all_completed_all_done (ts : List AsyncTask) :
    ts.all (fun t => t.status == TaskStatus.Completed) = true →
    ts.all (fun t => t.is_complete) = true := by
  intro h
  rw [List.all_eq_true] at *
  intro t ht
  have hs : t.status = TaskStatus.Completed := by simpa using h t ht
  simp [AsyncTask.is_complete, hs]

/-- C4: the workflow rollup sets the workflow status to Failed when some
member task is Failed; otherwise to Completed when every member task is
Completed; otherwise to Completed when every member task is terminal
(cancelled tasks mixed in, none failed); and in every other case leaves
the store — the workflow row included — unchanged. -/
theorem claim4_workflow_rollup (s : Store) (workflow_id now : Nat) :
    ((Database.get_workflow_tasks s.tasks workflow_id).any
        (fun t => t.status == TaskStatus.Failed) = true →
      Database.get_workflow (TaskQueue.update_workflow_status s workflow_id now).workflows
          workflow_id
        = (Database.get_workflow s.workflows workflow_id).map
            (Database.workflow_status_update TaskStatus.Failed now)) ∧
    ((Database.get_workflow_tasks s.tasks workflow_id).any
        (fun t => t.status == TaskStatus.Failed) = false →
      (Database.get_workflow_tasks s.tasks workflow_id).all
        (fun t => t.status == TaskStatus.Completed) = true →
      Database.get_workflow (TaskQueue.update_workflow_status s workflow_id now).workflows
          workflow_id
        = (Database.get_workflow s.workflows workflow_id).map
            (Database.workflow_status_update TaskStatus.Completed now)) ∧
    ((Database.get_workflow_tasks s.tasks workflow_id).any
        (fun t => t.status == TaskStatus.Failed) = false →
      (Database.get_workflow_tasks s.tasks workflow_id).all
        (fun t => t.status == TaskStatus.Completed) = false →
      (Database.get_workflow_tasks s.tasks workflow_id).all
        (fun t => t.is_complete) = true →
      Database.get_workflow (TaskQueue.update_workflow_status s workflow_id now).workflows
          workflow_id
        = (Database.get_workflow s.workflows workflow_id).map
            (Database.workflow_status_update TaskStatus.Completed now)) ∧
    ((Database.get_workflow_tasks s.tasks workflow_id).any
        (fun t => t.status == TaskStatus.Failed) = false →
      (Database.get_workflow_tasks s.tasks workflow_id).all
        (fun t => t.is_complete) = false →
      TaskQueue.update_workflow_status s workflow_id now = s) := by
  refine ⟨?_, ?_, ?_, ?_⟩
  · intro hany
    unfold TaskQueue.update_workflow_status
    simp only [hany, if_true]
    exact get_workflow_update_self s.workflows workflow_id TaskStatus.Failed now
  · intro hany hall
    unfold TaskQueue.update_workflow_status
    simp only [hany, hall, if_true, Bool.false_eq_true, if_false]
    exact get_workflow_update_self s.workflows workflow_id TaskStatus.Completed now
  · intro hany hallc hdone
    unfold TaskQueue.update_workflow_status
    simp only [hany, hallc, hdone, if_true, Bool.false_eq_true, if_false]
    exact get_workflow_update_self s.workflows workflow_id TaskStatus.Completed now
  · intro hany hdone
    have hallc : (Database.get_workflow_tasks s.tasks workflow_id).all
        (fun t => t.status == TaskStatus.Completed) = false := by
      cases hb : (Database.get_workflow_tasks s.tasks workflow_id).all
          (fun t => t.status == TaskStatus.Completed) with
      | false => rfl
      | true =>
          rw [all_completed_all_done _ hb] at hdone
          cases hdone
    unfold TaskQueue.update_workflow_status
    simp only [hany, hallc, hdone, Bool.false_eq_true, if_false]

/-- A failed member task of workflow 1, for the C4 witness. -/
def w4task : AsyncTask :=
  { AsyncTask.new 1 ("t4") ("agent") ("work") 0 with
      workflow_id := some 1, status := TaskStatus.Failed }

/-- The workflow row for the C4 witness. -/
def w4wf : Workflow :=
  { id := 1, name := ("wf"), description := none, status := TaskStatus.Running,
    created_at := 0, started_at := some 1, completed_at := none, metadata := none }

/-- Store with workflow 1 and its failed member task. -/
def w4store : Store := { empty_store with tasks := [w4task], workflows := [w4wf] }

theorem claim4_witness :
    (Database.get_workflow_tasks w4store.tasks 1).any
        (fun t => t.status == TaskStatus.Failed) = true ∧
    Database.get_workflow (TaskQueue.update_workflow_status w4store 1 9).workflows 1
      = (Database.get_workflow w4store.workflows 1).map
          (Database.workflow_status_update TaskStatus.Failed 9) :=
  ⟨by decide, (claim4_workflow_rollup w4store 1 9).1 (by decide)⟩

instance : IsTotal AsyncTask Database.task_order := by
  constructor
  intro a b
  unfold Database.task_order
  rcases lt_trichotomy a.priority.as_i32 b.priority.as_i32 with h | h | h
  · exact Or.inr (Or.inl h)
  · rcases Nat.le_total a.created_at b.created_at with hle | hle
    · exact Or.inl (Or.inr ⟨h, hle⟩)
    · exact Or.inr (Or.inr ⟨h.symm, hle⟩)
  · exact Or.inl (Or.inl h)

instance : IsTrans AsyncTask Database.task_order := by
  constructor
  intro a b c hab hbc
  unfold Database.task_order at *
  rcases hab with h1 | ⟨h1, h2⟩ <;> rcases hbc with h3 | ⟨h3, h4⟩
  · exact Or.inl (lt_trans h3 h1)
  · exact Or.inl (h3 ▸ h1)
  · exact Or.inl (h1 ▸ h3)
  · exact Or.inr ⟨h1.trans h3, le_trans h2 h4⟩

/-- The three pending tasks of the spec's priority-ordering scenario,
inserted in the order Low, High, Critical. -/
def p7low : AsyncTask :=
  { AsyncTask.new 1 ("low") ("agent") ("work") 1 with priority := TaskPriority.Low }

def p7high : AsyncTask :=
  { AsyncTask.new 2 ("high") ("agent") ("work") 2 with priority := TaskPriority.High }

def p7crit : AsyncTask :=
  { AsyncTask.new 3 ("crit") ("agent") ("work") 3 with priority := TaskPriority.Critical }

/-- C7: `get_pending_tasks(n)` returns pending rows only, sorted by
priority descending then created_at ascending, with length
min(n, number of pending rows); on the Low/High/Critical scenario it
returns Critical, High, Low. -/
theorem claim7_get_pending_tasks (tasks : List AsyncTask) (n : Nat) :
    (∀ t ∈ Database.get_pending_tasks tasks n, t.status = TaskStatus.Pending) ∧
    (Database.get_pending_tasks tasks n).length
      = min n (tasks.filter (fun t => t.status == TaskStatus.Pending)).length ∧
    List.Sorted Database.task_order (Database.get_pending_tasks tasks n) ∧
    Database.get_pending_tasks [p7low, p7high, p7crit] 10 = [p7crit, p7high, p7low] := by
  refine ⟨?_, ?_, ?_, by decide⟩
  · intro t ht
    have h1 : t ∈ (tasks.filter
        (fun t => t.status == TaskStatus.Pending)).insertionSort Database.task_order :=
      List.mem_of_mem_take ht
    have h2 : t ∈ tasks.filter (fun t => t.status == TaskStatus.Pending) := by
      simpa using h1
    have := List.of_mem_filter h2
    simpa using this
  · unfold Database.get_pending_tasks
    rw [List.length_take, List.length_insertionSort]
  · unfold Database.get_pending_tasks
    exact List.Pairwise.sublist (List.take_sublist _ _)
      (List.sorted_insertionSort Database.task_order _)

theorem claim7_witness :
    p7low ∈ Database.get_pending_tasks [p7low, p7high, p7crit] 10 ∧
    p7low.status = TaskStatus.Pending :=
  ⟨by decide, (claim7_get_pending_tasks [p7low, p7high, p7crit] 10).1 p7low (by decide)⟩

/-- Any id returned by `find_pending_webhooks` comes from a task row that
passed the query's WHERE clause. -/
theorem find_pending_webhooks_mem (tasks : List AsyncTask) (wd : List WebhookDeliveryRow)
    (tid : Nat) (h : tid ∈ WebhookManager.find_pending_webhooks tasks wd) :
    ∃ t ∈ tasks, t.id = tid ∧
      (t.webhook_url.isSome &&
        (t.status == TaskStatus.Completed || t.status == TaskStatus.Failed) &&
        !(WebhookManager.has_2xx_delivery wd t.id)) = true := by
  unfold WebhookManager.find_pending_webhooks at h
  have h1 := List.mem_of_mem_take h
  obtain ⟨t, ht, hid⟩ := List.mem_map.mp h1
  have ht2 : t ∈ tasks.filter (fun t =>
      t.webhook_url.isSome &&
      (t.status == TaskStatus.Completed || t.status == TaskStatus.Failed) &&
      !(WebhookManager.has_2xx_delivery wd t.id)) := by
    simpa using ht
  obtain ⟨hmem2, hcond⟩ := List.mem_filter.mp ht2
  exact ⟨t, hmem2, hid, hcond⟩

/-- C5 (amended): the pending-delivery query returns exactly the tasks
whose status is Completed or Failed — a Cancelled task is never selected,
unlike the spec's "terminal" — whose webhook_url is set and for which no
delivery row carries a 2xx status code (membership stated for stores of at
most 100 task rows, inside the query's LIMIT); unconditionally, a task
with a 2xx delivery row is never returned, so no further delivery is
attempted for it. -/
theorem claim5_find_pending_webhooks (tasks : List AsyncTask) (wd : List WebhookDeliveryRow)
    (tid : Nat) :
    (WebhookManager.has_2xx_delivery wd tid = true →
      tid ∉ WebhookManager.find_pending_webhooks tasks wd) ∧
    (tasks.length ≤ 100 →
      (tid ∈ WebhookManager.find_pending_webhooks tasks wd ↔
        ∃ t ∈ tasks, t.id = tid ∧ t.webhook_url.isSome = true ∧
          (t.status = TaskStatus.Completed ∨ t.status = TaskStatus.Failed) ∧
          WebhookManager.has_2xx_delivery wd t.id = false)) := by
  constructor
  · intro h2xx hmem
    obtain ⟨t, _, hid, hcond⟩ := find_pending_webhooks_mem tasks wd tid hmem
    rw [hid] at hcond
    simp [h2xx] at hcond
  · intro hlen
    constructor
    · intro hmem
      obtain ⟨t, ht, hid, hcond⟩ := find_pending_webhooks_mem tasks wd tid hmem
      refine ⟨t, ht, hid, ?_⟩
      simp only [Bool.and_eq_true, Bool.or_eq_true, beq_iff_eq, Bool.not_eq_true'] at hcond
      exact ⟨hcond.1.1, hcond.1.2, hcond.2⟩
    · rintro ⟨t, ht, hid, hurl, hstatus, h2xx⟩
      unfold WebhookManager.find_pending_webhooks
      have hcond : (t.webhook_url.isSome &&
          (t.status == TaskStatus.Completed || t.status == TaskStatus.Failed) &&
          !(WebhookManager.has_2xx_delivery wd t.id)) = true := by
        simp only [Bool.and_eq_true, Bool.or_eq_true, beq_iff_eq, Bool.not_eq_true']
        exact ⟨⟨hurl, hstatus⟩, h2xx⟩
      have htf : t ∈ tasks.filter (fun t =>
          t.webhook_url.isSome &&
          (t.status == TaskStatus.Completed || t.status == TaskStatus.Failed) &&
          !(WebhookManager.has_2xx_delivery wd t.id)) :=
        List.mem_filter.mpr ⟨ht, hcond⟩
      have hts : t ∈ (tasks.filter (fun t =>
          t.webhook_url.isSome &&
          (t.status == TaskStatus.Completed || t.status == TaskStatus.Failed) &&
          !(WebhookManager.has_2xx_delivery wd t.id))).insertionSort
            WebhookManager.completed_order := by
        simpa using htf
      have hmap : tid ∈ ((tasks.filter (fun t =>
          t.webhook_url.isSome &&
          (t.status == TaskStatus.Completed || t.status == TaskStatus.Failed) &&
          !(WebhookManager.has_2xx_delivery wd t.id))).insertionSort
            WebhookManager.completed_order).map (fun t => t.id) :=
        List.mem_map.mpr ⟨t, hts, hid⟩
      have hlen2 : (((tasks.filter (fun t =>
          t.webhook_url.isSome &&
          (t.status == TaskStatus.Completed || t.status == TaskStatus.Failed) &&
          !(WebhookManager.has_2xx_delivery wd t.id))).insertionSort
            WebhookManager.completed_order).map (fun t => t.id)).length ≤ 100 := by
        rw [List.length_map, List.length_insertionSort]
        exact le_trans (List.length_filter_le _ _) hlen
      rw [List.take_of_length_le hlen2]
      exact hmap

/-- A Cancelled task with a webhook url and no delivery rows: terminal in
the spec's sense, yet never selected by the query. -/
def c5task : AsyncTask :=
  { AsyncTask.new 1 ("t5") ("agent") ("work") 0 with
      status := TaskStatus.Cancelled, completed_at := some 2,
      webhook_url := some ("hook") }

theorem claim5_counterexample :
    c5task.status = TaskStatus.Cancelled ∧
    c5task.is_complete = true ∧
    c5task.webhook_url.isSome = true ∧
    WebhookManager.has_2xx_delivery [] c5task.id = false ∧
    c5task.id ∉ WebhookManager.find_pending_webhooks [c5task] [] := by
  refine ⟨rfl, rfl, rfl, rfl, ?_⟩
  decide

/-- A completed task with a 2xx delivery row, for the C5 witness. -/
def w5task : AsyncTask :=
  { AsyncTask.new 1 ("t5w") ("agent") ("work") 0 with
      status := TaskStatus.Completed, completed_at := some 2,
      webhook_url := some ("hook") }

/-- The 2xx delivery row of `w5task`. -/
def w5row : WebhookDeliveryRow :=
  { task_id := 1, webhook_url := ("hook"), payload := WebhookPayload.from_task w5task,
    status_code := some 200, response := some ("ok"), attempted_at := 3,
    delivered_at := some 3 }

theorem claim5_witness :
    WebhookManager.has_2xx_delivery [w5row] 1 = true ∧
    1 ∉ WebhookManager.find_pending_webhooks [w5task] [w5row] :=
  ⟨by decide, (claim5_find_pending_webhooks [w5task] [w5row] 1).1 (by decide)⟩

/-- Whether an HTTP outcome is a 2xx response. -/
def is_2xx : SendOutcome → Bool
  | SendOutcome.response status _ => 200 ≤ status && status < 300
  | SendOutcome.netError _ => false

theorem is_2xx_of_ok (o : SendOutcome) (st : Nat) (body : String)
    (h : WebhookManager.send_webhook_result o = Except.ok (st, body)) :
    is_2xx o = true := by
  cases o with
  | response s b =>
      simp only [WebhookManager.send_webhook_result] at h
      by_cases hc : (decide (200 ≤ s) && decide (s < 300)) = true
      · simp only [is_2xx]
        exact hc
      · rw [if_neg hc] at h
        cases h
  | netError m =>
      simp only [WebhookManager.send_webhook_result] at h
      cases h

theorem is_2xx_of_error (o : SendOutcome) (e : String)
    (h : WebhookManager.send_webhook_result o = Except.error e) :
    is_2xx o = false := by
  cases o with
  | response s b =>
      simp only [WebhookManager.send_webhook_result] at h
      by_cases hc : (decide (200 ≤ s) && decide (s < 300)) = true
      · rw [if_pos hc] at h
        cases h
      · simp only [is_2xx]
        cases hcb : (decide (200 ≤ s) && decide (s < 300)) with
        | false => rfl
        | true => exact absurd hcb hc
  | netError m => rfl

/-- The retry loop performs at most `remaining` attempts. -/
theorem retry_webhook_go_length (cfg : WebhookConfig) (tid : Nat) (url : String)
    (payload : WebhookPayload) (send : Nat → SendOutcome) (now : Nat) :
    ∀ (remaining attempt : Nat),
      (WebhookManager.retry_webhook_go cfg tid url payload send now attempt remaining).1.length
        ≤ remaining := by
  intro remaining
  induction remaining with
  | zero =>
      intro attempt
      simp [WebhookManager.retry_webhook_go]
  | succ n ih =>
      intro attempt
      unfold WebhookManager.retry_webhook_go
      cases hsend : WebhookManager.send_webhook_result (send attempt) with
      | ok p =>
          cases p with
          | mk st body => simp
      | error e =>
          simp only [List.length_cons]
          have := ih (attempt + 1)
          omega

/-- Every row the retry loop writes records the linear backoff delay of
its attempt number, and carries a status code — and hence a delivered_at
stamp — exactly when that attempt's POST came back 2xx. -/
theorem retry_webhook_go_getElem (cfg : WebhookConfig) (tid : Nat) (url : String)
    (payload : WebhookPayload) (send : Nat → SendOutcome) (now : Nat) :
    ∀ (remaining attempt k : Nat) (a : WebhookManager.WebhookAttempt),
      (WebhookManager.retry_webhook_go cfg tid url payload send now attempt remaining).1[k]?
          = some a →
      a.delay = cfg.retry_delay_seconds * (attempt + k) ∧
      a.row.delivered_at.isSome = is_2xx (send (attempt + k)) ∧
      a.row.status_code.isSome = is_2xx (send (attempt + k)) := by
  intro remaining
  induction remaining with
  | zero =>
      intro attempt k a h
      simp [WebhookManager.retry_webhook_go] at h
  | succ n ih =>
      intro attempt k a h
      unfold WebhookManager.retry_webhook_go at h
      cases hsend : WebhookManager.send_webhook_result (send attempt) with
      | ok p =>
          cases p with
          | mk st body =>
              rw [hsend] at h
              simp only [] at h
              cases k with
              | zero =>
                  simp at h
                  subst h
                  refine ⟨by simp, ?_, ?_⟩ <;>
                    simp [WebhookManager.log_delivery_row, is_2xx_of_ok _ _ _ hsend]
              | succ m => simp at h
      | error e =>
          rw [hsend] at h
          simp only [] at h
          cases k with
          | zero =>
              simp at h
              subst h
              refine ⟨by simp, ?_, ?_⟩ <;>
                simp [WebhookManager.log_delivery_row, is_2xx_of_error _ _ hsend]
          | succ m =>
              simp only [List.getElem?_cons_succ] at h
              have hm := ih (attempt + 1) m a h
              have harith : attempt + 1 + m = attempt + (m + 1) := by omega
              rw [harith] at hm
              exact hm

/-- C8: for a terminal task with a webhook url whose first POST is not
2xx, `deliver_webhook` writes an initial delivery row with delivered_at
unset, then performs at most `max_retries` retries; the attempt number k
row (the initial POST being attempt 0) follows the linear backoff delay
`retry_delay_seconds * k`, every attempt writes exactly one row — the row
list indexes attempts one-to-one — and a row carries a status code, and
with it a delivered_at stamp, exactly when that attempt came back 2xx. -/
theorem claim8_webhook_retry (cfg : WebhookConfig) (s : Store) (task_id : Nat)
    (send : Nat → SendOutcome) (now : Nat) (t : AsyncTask) (url : String)
    (hget : Database.get_task s.tasks task_id = some t)
    (hurl : t.webhook_url = some url)
    (hterm : t.is_complete = true)
    (hfail : is_2xx (send 0) = false) :
    1 ≤ (WebhookManager.deliver_webhook cfg s task_id send now).length ∧
    (WebhookManager.deliver_webhook cfg s task_id send now).length ≤ 1 + cfg.max_retries ∧
    ((WebhookManager.deliver_webhook cfg s task_id send now)[0]?.map
        (fun a => a.row.delivered_at)) = some none ∧
    (∀ k a, (WebhookManager.deliver_webhook cfg s task_id send now)[k]? = some a →
      a.delay = cfg.retry_delay_seconds * k ∧
      a.row.delivered_at.isSome = is_2xx (send k) ∧
      a.row.status_code.isSome = is_2xx (send k)) := by
  have hde : ∃ e, WebhookManager.send_webhook_result (send 0) = Except.error e := by
    cases hs : WebhookManager.send_webhook_result (send 0) with
    | ok p =>
        cases p with
        | mk st body =>
            rw [is_2xx_of_ok _ _ _ hs] at hfail
            cases hfail
    | error e => exact ⟨e, rfl⟩
  obtain ⟨e, he⟩ := hde
  have hdw : WebhookManager.deliver_webhook cfg s task_id send now
      = { delay := 0,
          row := WebhookManager.log_delivery_row task_id url (WebhookPayload.from_task t)
            none (some e) now }
        :: (WebhookManager.retry_webhook cfg task_id url (WebhookPayload.from_task t)
              send now).1 := by
    unfold WebhookManager.deliver_webhook
    rw [hget]
    dsimp only
    rw [hurl]
    dsimp only
    rw [if_pos hterm, he]
  refine ⟨?_, ?_, ?_, ?_⟩
  · rw [hdw]
    simp
  · rw [hdw]
    simp only [List.length_cons]
    have := retry_webhook_go_length cfg task_id url (WebhookPayload.from_task t) send now
      cfg.max_retries 1
    unfold WebhookManager.retry_webhook
    omega
  · rw [hdw]
    simp [WebhookManager.log_delivery_row]
  · intro k a h
    rw [hdw] at h
    cases k with
    | zero =>
        simp at h
        subst h
        refine ⟨by simp, ?_, ?_⟩ <;> simp [WebhookManager.log_delivery_row, hfail]
    | succ m =>
        simp only [List.getElem?_cons_succ] at h
        have hm := retry_webhook_go_getElem cfg task_id url (WebhookPayload.from_task t)
          send now cfg.max_retries 1 m a h
        have harith : 1 + m = m + 1 := by omega
        rw [harith] at hm
        exact hm

/-- The completed task with a webhook used as the C8 witness. -/
def w8task : AsyncTask :=
  { AsyncTask.new 1 ("t8") ("agent") ("work") 0 with
      status := TaskStatus.Completed, completed_at := some 2,
      webhook_url := some ("hook") }

/-- Store holding only `w8task`. -/
def w8store : Store := { empty_store with tasks := [w8task] }

/-- An endpoint that always answers 500. -/
def send500 (_n : Nat) : SendOutcome := SendOutcome.response 500 ("err")

theorem claim8_witness :
    Database.get_task w8store.tasks 1 = some w8task ∧
    w8task.webhook_url = some ("hook") ∧
    w8task.is_complete = true ∧
    is_2xx (send500 0) = false ∧
    ((WebhookManager.deliver_webhook WebhookConfig.default w8store 1 send500 4)[0]?.map
        (fun a => a.row.delivered_at)) = some none :=
  ⟨rfl, rfl, rfl, by decide,
    (claim8_webhook_retry WebhookConfig.default w8store 1 send500 4 w8task ("hook")
      rfl rfl rfl (by decide)).2.2.1⟩

/-- Members of `get_pending_tasks` are pending rows of the table. -/
theorem mem_get_pending_tasks (tasks : List AsyncTask) (n : Nat) (t : AsyncTask)
    (ht : t ∈ Database.get_pending_tasks tasks n) :
    t ∈ tasks ∧ t.status = TaskStatus.Pending := by
  have h1 : t ∈ (tasks.filter
      (fun t => t.status == TaskStatus.Pending)).insertionSort Database.task_order :=
    List.mem_of_mem_take ht
  have h2 : t ∈ tasks.filter (fun t => t.status == TaskStatus.Pending) := by
    simpa using h1
  obtain ⟨hmem, hcond⟩ := List.mem_filter.mp h2
  exact ⟨hmem, by simpa using hcond⟩

/-- A task passing the scheduler's readiness test has its dependencies
completed. -/
theorem schedule_task_ready_deps (s : Store) (t : AsyncTask)
    (h : TaskQueue.schedule_task_ready s t = true) :
    Database.are_dependencies_completed s.tasks t = true := by
  unfold TaskQueue.schedule_task_ready at h
  by_cases hdep : Database.are_dependencies_completed s.tasks t = true
  · exact hdep
  · rw [if_neg hdep] at h
    cases h

/-- C1 (amended): on the scheduler path the claim holds — a tick
enqueues Execute(id) only for a pending task every one of whose
dependencies exists in the store and is Completed at that moment. The
claim's universal form fails, because neither Execute processing nor the
create-task endpoint's immediate submit checks dependencies (see the
counterexample). -/
theorem claim1_scheduler_gates_dependencies (s : Store) (id : Nat)
    (hid : id ∈ TaskQueue.schedule_pending_tasks s) :
    ∃ t ∈ Database.get_pending_tasks s.tasks 100, t.id = id ∧
      t.status = TaskStatus.Pending ∧
      ∀ d ∈ t.dependencies, ∃ u, Database.get_task s.tasks d = some u ∧
        u.status = TaskStatus.Completed := by
  unfold TaskQueue.schedule_pending_tasks at hid
  obtain ⟨t, htf, htid⟩ := List.mem_map.mp hid
  obtain ⟨ht, hready⟩ := List.mem_filter.mp htf
  have hdep := schedule_task_ready_deps s t hready
  exact ⟨t, ht, htid, (mem_get_pending_tasks s.tasks 100 t ht).2,
    (are_dependencies_completed_iff s.tasks t).mp hdep⟩

/-- Completed dependency task for the C1 witness. -/
def w1taskB : AsyncTask :=
  { AsyncTask.new 2 ("b") ("agent") ("work") 0 with
      status := TaskStatus.Completed, completed_at := some 1, result := some ("ok") }

/-- Pending task depending on the completed one, for the C1 witness. -/
def w1taskA : AsyncTask :=
  { AsyncTask.new 1 ("a") ("agent") ("work") 1 with dependencies := [2] }

/-- Store for the C1 witness. -/
def w1store : Store := { empty_store with tasks := [w1taskA, w1taskB] }

theorem claim1_witness :
    (1 : Nat) ∈ TaskQueue.schedule_pending_tasks w1store ∧
    (∃ t ∈ Database.get_pending_tasks w1store.tasks 100, t.id = 1 ∧
      t.status = TaskStatus.Pending ∧
      ∀ d ∈ t.dependencies, ∃ u, Database.get_task w1store.tasks d = some u ∧
        u.status = TaskStatus.Completed) :=
  ⟨by decide, claim1_scheduler_gates_dependencies w1store 1 (by decide)⟩

/-- The dependency task B, still pending when A is executed. -/
def c1taskB : AsyncTask := AsyncTask.new 2 ("b1") ("agent") ("work") 0

/-- Task A, created through the endpoint with dependencies=[2]. -/
def c1taskA : AsyncTask :=
  { AsyncTask.new 1 ("a1") ("agent") ("work") 1 with dependencies := [2] }

/-- The store after the create-task endpoint accepted B then A; creating
A also submitted Execute(1) to the queue at once. -/
def c1store : Store := (Api.create_task (Api.create_task empty_store c1taskB).1 c1taskA).1

/-- C1 counterexample: the Execute(1) command submitted by the create
endpoint for task A (dependencies [2]) makes the worker set A Running
while the store still reports dependency 2 as Pending, not Completed. -/
theorem claim1_counterexample :
    c1taskA.dependencies = [2] ∧
    (Api.create_task (Api.create_task empty_store c1taskB).1 c1taskA).2 = 1 ∧
    (Database.get_task c1store.tasks 1).map AsyncTask.status = some TaskStatus.Pending ∧
    (Database.get_task c1store.tasks 2).map AsyncTask.status = some TaskStatus.Pending ∧
    (Database.get_task (TaskQueue.execute_task c1store 1 5).1.tasks 1).map AsyncTask.status
      = some TaskStatus.Running ∧
    (Database.get_task (TaskQueue.execute_task c1store 1 5).1.tasks 2).map AsyncTask.status
      = some TaskStatus.Pending := by
  refine ⟨rfl, rfl, ?_, ?_, ?_, ?_⟩ <;> decide

/-- C2 (amended): processing Execute(id) skips — leaving the store
untouched and emitting no result — only when the task row is missing.
Whenever the row exists, whatever its loaded status, the worker sets
status=Running (stamping started_at), appends the "Task started" log and
invokes the runner on the loaded task. -/
theorem claim2_execute_skips_only_missing (s : Store) (task_id now : Nat) :
    (Database.get_task s.tasks task_id = none →
      TaskQueue.execute_task s task_id now = (s, none)) ∧
    (∀ t, Database.get_task s.tasks task_id = some t →
      Database.get_task (TaskQueue.execute_task s task_id now).1.tasks task_id
          = some { t with status := TaskStatus.Running, started_at := some now } ∧
      (TaskQueue.execute_task s task_id now).1.task_logs
          = s.task_logs ++ [{ task_id := task_id, timestamp := now, level := ("INFO"),
                              message := ("Task started"), metadata := none }] ∧
      (TaskQueue.execute_task s task_id now).2
          = some (TaskQueue.simulate_task_execution t)) := by
  constructor
  · intro hnone
    unfold TaskQueue.execute_task
    rw [hnone]
  · intro t hget
    have hid : ∀ u : AsyncTask,
        (Database.task_status_update TaskStatus.Running now u).id = u.id := fun _ => rfl
    have key := get_task_map_update s.tasks task_id task_id
      (Database.task_status_update TaskStatus.Running now) hid
    rw [if_pos rfl] at key
    have hex : TaskQueue.execute_task s task_id now
        = ({ s with
              tasks := Database.update_task_status s.tasks task_id TaskStatus.Running now,
              task_logs := Database.add_task_log s.task_logs task_id ("INFO")
                ("Task started") none now },
           some (TaskQueue.simulate_task_execution t)) := by
      unfold TaskQueue.execute_task
      rw [hget]
    rw [hex]
    refine ⟨?_, rfl, rfl⟩
    show Database.get_task (Database.update_task_status s.tasks task_id TaskStatus.Running now)
        task_id = _
    exact key.trans (by rw [hget]; rfl)

/-- A task loaded with terminal status Completed, for the C2
counterexample. -/
def c2task : AsyncTask :=
  { AsyncTask.new 1 ("t2") ("agent") ("work") 0 with
      status := TaskStatus.Completed, completed_at := some 2, result := some ("done") }

/-- Store holding only `c2task`. -/
def c2store : Store := { empty_store with tasks := [c2task] }

/-- C2 counterexample: a task whose loaded status is Completed is not
left unchanged by Execute(id) — the worker overwrites its status to
Running. -/
theorem claim2_counterexample :
    c2task.status = TaskStatus.Completed ∧
    Database.get_task c2store.tasks 1 = some c2task ∧
    Database.get_task (TaskQueue.execute_task c2store 1 5).1.tasks 1 ≠ some c2task ∧
    (Database.get_task (TaskQueue.execute_task c2store 1 5).1.tasks 1).map
        AsyncTask.status = some TaskStatus.Running := by
  refine ⟨rfl, rfl, ?_, ?_⟩ <;> decide

/-- A running task, for the C2 witness (the amended claim applied to a
present row). -/
def w2task : AsyncTask :=
  { AsyncTask.new 1 ("t2w") ("agent") ("work") 0 with
      status := TaskStatus.Running, started_at := some 2 }

/-- Store holding only `w2task`. -/
def w2store : Store := { empty_store with tasks := [w2task] }

theorem claim2_witness :
    Database.get_task w2store.tasks 1 = some w2task ∧
    Database.get_task (TaskQueue.execute_task w2store 1 6).1.tasks 1
      = some { w2task with status := TaskStatus.Running, started_at := some 6 } :=
  ⟨rfl, ((claim2_execute_skips_only_missing w2store 1 6).2 w2task rfl).1⟩

/-- The failed task of the retry scenario: status Failed, retry_count
0 < max_retries 3, so `can_retry` holds. -/
def c3task : AsyncTask :=
  { AsyncTask.new 1 ("t3") ("agent") ("work") 0 with
      status := TaskStatus.Failed, completed_at := some 2, error := some ("boom") }

/-- Store holding only `c3task`. -/
def c3store : Store := { empty_store with tasks := [c3task] }

/-- Store after processing Retry(1). -/
def c3after_retry : Store := TaskQueue.retry_task c3store 1 3

/-- Worker execution of the retried task. -/
def c3exec : Store × Option TaskResult := TaskQueue.execute_task c3after_retry 1 4

/-- Store after the result processor consumed the (successful) runner
result of the retried execution. -/
def c3final : Store :=
  TaskQueue.process_task_result c3exec.1
    (c3exec.2.getD (TaskQueue.simulate_task_execution c3task)) 5

/-- C3, evaluated at the failing input: the retried task is reset to
Pending by Retry(1), re-executed, and completed by the result processor,
yet its retry_count is still 0 — no code path of the repository ever
writes to retry_count — where the claim requires retry_count ≥ 1 after a
successful retried execution. -/
theorem claim3_retry_count_never_incremented :
    c3task.can_retry = true ∧
    (Database.get_task c3after_retry.tasks 1).map AsyncTask.status
        = some TaskStatus.Pending ∧
    (Database.get_task c3final.tasks 1).map AsyncTask.status = some TaskStatus.Completed ∧
    (Database.get_task c3final.tasks 1).map AsyncTask.retry_count = some 0 := by
  refine ⟨rfl, ?_, ?_, ?_⟩ <;> decide
